import Mathlib

/-!
Verification of `energy_monitor.py` (Energy-Data-Collector).

The Python source is shallowly embedded as executable Lean definitions:
floats become exact rationals, `datetime` values become a record of calendar
fields with proleptic-Gregorian day arithmetic, HTTP/library outcomes become
inductive inputs, and Python exceptions become an explicit `Except`/error
component. Definitions mirror the source functions line by line; the
theorems below settle the specification claims about them.
-/

deriving instance DecidableEq for Except

/-- Python exceptions relevant to this program. `valueError` arises from
`datetime.fromisoformat` / `float()` on unparsable text, `attributeError`
from `.text` on a `None` result of `Element.find`, `influxError` from the
InfluxDB client's `write_points`. `keyboardInterrupt` and `systemExit` are
the `BaseException` subclasses that a Python `except Exception:` clause does
NOT catch; they are included so that "the handler catches everything the run
can raise" is a statement with content. -/
inductive PyExc where
  | valueError
  | attributeError
  | influxError
  | keyboardInterrupt
  | systemExit
deriving DecidableEq, Repr

/-- Whether a raised object is caught by Python `except Exception:`:
every exception class except `KeyboardInterrupt` and `SystemExit`. -/
def isException : PyExc → Bool
  | .keyboardInterrupt => false
  | .systemExit => false
  | _ => true

/-- A `datetime.datetime` in UTC, as its calendar/time fields
(`fold`/`tzinfo` omitted: the program only ever uses `timezone.utc`). -/
structure PyDateTime where
  year : ℤ
  month : ℤ
  day : ℤ
  hour : ℤ
  minute : ℤ
  second : ℤ
  microsecond : ℤ
deriving DecidableEq, Repr

/-- Days since 1970-01-01 of a proleptic-Gregorian civil date, as CPython's
`datetime` date arithmetic computes it (Hinnant's civil-date algorithm,
truncating division as in C). -/
def daysFromCivil (y m d : ℤ) : ℤ :=
  let y := if m ≤ 2 then y - 1 else y
  let era := (if 0 ≤ y then y else y - 399) / 400
  let yoe := y - era * 400
  let mp := if 2 < m then m - 3 else m + 9
  let doy := (153 * mp + 2) / 5 + d - 1
  let doe := yoe * 365 + yoe / 4 - yoe / 100 + doy
  era * 146097 + doe - 719468

/-- Inverse of `daysFromCivil`: the civil date (year, month, day) of a
day count since 1970-01-01. -/
def civilFromDays (z : ℤ) : ℤ × ℤ × ℤ :=
  let z := z + 719468
  let era := (if 0 ≤ z then z else z - 146096) / 146097
  let doe := z - era * 146097
  let yoe := (doe - doe / 1460 + doe / 36524 - doe / 146096) / 365
  let y := yoe + era * 400
  let doy := doe - (365 * yoe + yoe / 4 - yoe / 100)
  let mp := (5 * doy + 2) / 153
  let d := doy - (153 * mp + 2) / 5 + 1
  let m := if mp < 10 then mp + 3 else mp - 9
  (if m ≤ 2 then y + 1 else y, m, d)

/-- `dt - timedelta(days=n)`: shifts the calendar date by whole days and
leaves the time-of-day fields untouched (a whole-day `timedelta` never
changes hour/minute/second/microsecond). -/
def subDays (dt : PyDateTime) (n : ℤ) : PyDateTime :=
  let c := civilFromDays (daysFromCivil dt.year dt.month dt.day - n)
  { dt with year := c.1, month := c.2.1, day := c.2.2 }

/-- `dt.replace(hour=h, minute=mi, second=s, microsecond=us)`. -/
def replaceTime (dt : PyDateTime) (h mi s us : ℤ) : PyDateTime :=
  { dt with hour := h, minute := mi, second := s, microsecond := us }

/-- The date-window computation of `collect_and_store_data`
(energy_monitor.py lines 164-168), given the invocation instant
`today_utc = datetime.now(timezone.utc)`:
  end_utc   = today_utc.replace(hour=0, minute=0, second=0, microsecond=0)
              - timedelta(days=1), then .replace(hour=23, minute=59,
              second=59, microsecond=999999);
  start_utc = (end_utc - timedelta(days=days_to_collect - 1))
              .replace(hour=0, minute=0, second=0, microsecond=0).
Returns `(start_utc, end_utc)`. -/
def computeWindow (today_utc : PyDateTime) (days_to_collect : ℤ) :
    PyDateTime × PyDateTime :=
  let end1 := subDays (replaceTime today_utc 0 0 0 0) 1
  let end_utc := replaceTime end1 23 59 59 999999
  let start1 := subDays end_utc (days_to_collect - 1)
  let start_utc := replaceTime start1 0 0 0 0
  (start_utc, end_utc)

/-- Claim C2 states the window for invocation instant 2024-03-10T12:00:00Z
and 7 days is [2024-03-02T00:00:00, 2024-03-09T23:59:59.999999]: the code
disagrees on the start day. -/
theorem computeWindow_claimed_start_wrong :
    computeWindow ⟨2024, 3, 10, 12, 0, 0, 0⟩ 7 ≠
      (⟨2024, 3, 2, 0, 0, 0, 0⟩, ⟨2024, 3, 9, 23, 59, 59, 999999⟩) := by
  decide

/-- Claim C2 (amended): for invocation instant 2024-03-10T12:00:00Z and
daysToCollect = 7, the computed window is start = 2024-03-03T00:00:00Z and
end = 2024-03-09T23:59:59.999999Z — the 7 full UTC days 2024-03-03 through
2024-03-09, ending the day before invocation and never including the
current partial day (the start claimed by the spec, 2024-03-02, would make
the window 8 days). -/
theorem computeWindow_2024_03_10 :
    computeWindow ⟨2024, 3, 10, 12, 0, 0, 0⟩ 7 =
      (⟨2024, 3, 3, 0, 0, 0, 0⟩, ⟨2024, 3, 9, 23, 59, 59, 999999⟩) := by
  decide

/-- Text content of an XML element or JSON field, classified by what the
external parsing functions do with it: `isoDate d` is a string that
`datetime.fromisoformat` accepts (denoting instant `d`), `number q` is a
string that `float()` accepts (denoting `q`), `junk` is any other string
(both library calls raise `ValueError` on it). -/
inductive Text where
  | isoDate (d : PyDateTime)
  | number (q : ℚ)
  | junk (s : String)
deriving DecidableEq, Repr

/-- `datetime.fromisoformat`: succeeds exactly on ISO-formatted date-time
strings, raises `ValueError` (modelled as `none`) otherwise. -/
def fromisoformat : Text → Option PyDateTime
  | .isoDate d => some d
  | _ => none

/-- Python `float(s)` on element text: succeeds exactly on numeric strings,
raises `ValueError` (modelled as `none`) otherwise. -/
def pyFloat : Text → Option ℚ
  | .number q => some q
  | _ => none

/-- A `<Point>` element: `quantity` is the text of its `quantity` child,
`none` when that child is absent (then `point.find(...).text` raises
`AttributeError`). -/
structure PointElem where
  quantity : Option Text
deriving DecidableEq, Repr

/-- A `<Period>` element: `start` is the text of its `timeInterval/start`
descendant (`none` when absent), `points` its `<Point>` descendants in
document order. -/
structure PeriodElem where
  start : Option Text
  points : List PointElem
deriving DecidableEq, Repr

/-- A `<TimeSeries>` element: its `<Period>` descendants in document order
(`timeseries.find` takes the first). -/
structure TimeSeriesElem where
  periods : List PeriodElem
deriving DecidableEq, Repr

/-- A well-formed load document: its `<TimeSeries>` elements in document
order. -/
structure LoadDoc where
  series : List TimeSeriesElem
deriving DecidableEq, Repr

/-- One parsed load point, as the dict
`{'time': start_date.isoformat(), 'load_kwh': quantity}` built at
energy_monitor.py lines 90-93 (the `isoformat` string is represented by
the instant itself). -/
structure LoadPoint where
  time : PyDateTime
  load_kwh : ℚ
deriving DecidableEq, Repr

/-- The inner loop of `get_entsoe_load` (lines 88-93) over the `<Point>`
elements of one period whose parsed start is `d`: for each point,
`float(point.find('.//ns:quantity', namespace).text)` — `AttributeError`
when the quantity element is missing, `ValueError` when its text is not
numeric — then append `{'time': d, 'load_kwh': quantity}`. -/
def parsePoints (d : PyDateTime) : List PointElem → Except PyExc (List LoadPoint)
  | [] => .ok []
  | pt :: rest =>
    match pt.quantity with
    | none => .error .attributeError
    | some t =>
      match pyFloat t with
      | none => .error .valueError
      | some q => do
        let tail ← parsePoints d rest
        .ok ({ time := d, load_kwh := q } :: tail)

/-- The outer loop of `get_entsoe_load` (lines 82-93) over the
`<TimeSeries>` elements: take the FIRST `<Period>` of the series (skip the
series if there is none), read its `timeInterval/start` text
(`AttributeError` when the element is missing), parse it with
`datetime.fromisoformat` (`ValueError` when unparsable), then run
`parsePoints` on that period's points. Results accumulate in document
order. -/
def parseSeriesList : List TimeSeriesElem → Except PyExc (List LoadPoint)
  | [] => .ok []
  | ts :: rest => do
    let pts ←
      match ts.periods.head? with
      | none => Except.ok ([] : List LoadPoint)
      | some p =>
        match p.start with
        | none => Except.error PyExc.attributeError
        | some t =>
          match fromisoformat t with
          | none => Except.error PyExc.valueError
          | some d => parsePoints d p.points
    let tail ← parseSeriesList rest
    .ok (pts ++ tail)

/-- The XML-extraction phase of `get_entsoe_load` applied to the root
element returned by `ET.fromstring`. -/
def extractLoadPoints (doc : LoadDoc) : Except PyExc (List LoadPoint) :=
  parseSeriesList doc.series

/-- What the ENTSO-E HTTP exchange can yield before extraction begins:
`requestError` — `requests.get` or `raise_for_status` raises a
`requests.RequestException`; `malformedXml` — `ET.fromstring` raises
`xml.etree.ElementTree.ParseError`; `response doc` — a well-formed XML
document. -/
inductive EntsoeOutcome where
  | requestError
  | malformedXml
  | response (doc : LoadDoc)
deriving DecidableEq, Repr

/-- `EnergyDataCollector.get_entsoe_load` (lines 40-103): the `try` block
runs the HTTP request, XML parse and extraction; `except
requests.RequestException` and `except ET.ParseError` both return `[]`.
Exceptions raised by the extraction loop itself (`ValueError`,
`AttributeError`) match neither clause and propagate to the caller. -/
def get_entsoe_load : EntsoeOutcome → Except PyExc (List LoadPoint)
  | .requestError => .ok []
  | .malformedXml => .ok []
  | .response doc => extractLoadPoints doc

/-- A concrete well-formed response document whose period start text is not
ISO-parsable: one TimeSeries, one Period with start text "not-a-date" and
one Point with quantity 1. -/
def badStartDoc : LoadDoc :=
  ⟨[⟨[⟨some (.junk "not-a-date"), [⟨some (.number 1)⟩]⟩]⟩]⟩

/-- A concrete well-formed response document missing the
`timeInterval/start` element of its only period. -/
def missingStartDoc : LoadDoc :=
  ⟨[⟨[⟨none, [⟨some (.number 1)⟩]⟩]⟩]⟩

/-- A concrete well-formed response document whose only point has no
`quantity` child. -/
def missingQuantityDoc : LoadDoc :=
  ⟨[⟨[⟨some (.isoDate ⟨2024, 1, 1, 0, 0, 0, 0⟩), [⟨none⟩]⟩]⟩]⟩

/-- A concrete well-formed response document whose only point has a
non-numeric quantity text. -/
def badQuantityDoc : LoadDoc :=
  ⟨[⟨[⟨some (.isoDate ⟨2024, 1, 1, 0, 0, 0, 0⟩), [⟨some (.junk "NaN?")⟩]⟩]⟩]⟩

/-- Claim C3 is refuted: on the well-formed document whose Period start
text is not ISO-8601-parsable, `get_entsoe_load` raises `ValueError` past
its boundary instead of returning the empty list — the `try` block catches
only `requests.RequestException` and `ET.ParseError`, and
`datetime.fromisoformat` raises `ValueError`, which matches neither
clause. -/
theorem get_entsoe_load_bad_start_raises :
    get_entsoe_load (.response badStartDoc) = .error .valueError ∧
    get_entsoe_load (.response badStartDoc) ≠ .ok [] := by
  exact ⟨rfl, by decide⟩

/-- Claim C3 (amended): inputs rejected before extraction — an HTTP-layer
failure (`requests.RequestException`) or XML that is not well-formed
(`ET.ParseError` from `ET.fromstring`) — yield the empty list without
raising; but a well-formed document with a missing `start` element, a
non-ISO `start` text, a missing `quantity` element, or a non-numeric
`quantity` text raises `AttributeError`/`ValueError` past the function's
boundary (caught only by the run-level handler). -/
theorem get_entsoe_load_caught_vs_uncaught :
    get_entsoe_load .requestError = .ok [] ∧
    get_entsoe_load .malformedXml = .ok [] ∧
    get_entsoe_load (.response missingStartDoc) = .error .attributeError ∧
    get_entsoe_load (.response missingQuantityDoc) = .error .attributeError ∧
    get_entsoe_load (.response badQuantityDoc) = .error .valueError := by
  exact ⟨rfl, rfl, rfl, rfl, rfl⟩

/-- Claim C10: the extraction loop is insensitive to every Period of a
TimeSeries after the first — replacing a TimeSeries whose period list is
`p :: ps` by one containing only `[p]` leaves the parse result unchanged,
so the start instants and Point elements of all subsequent Periods are
silently dropped (`timeseries.find('.//ns:Period')` returns only the first
match). -/
theorem parseSeriesList_first_period_only (p : PeriodElem) (ps : List PeriodElem)
    (rest : List TimeSeriesElem) :
    parseSeriesList (⟨p :: ps⟩ :: rest) = parseSeriesList (⟨[p]⟩ :: rest) := rfl

/-- A load document valid per the spec's input schema (§4.1: "zero or more
TimeSeries elements, each containing a Period with a timeInterval/start
and zero or more Point elements holding a quantity"): every TimeSeries has
exactly one Period, every Period start parses as an ISO instant, and every
Point quantity parses as a number. -/
def ValidDoc (doc : LoadDoc) : Prop :=
  ∀ ts ∈ doc.series, ts.periods.length = 1 ∧
    ∀ p ∈ ts.periods, (p.start.bind fromisoformat).isSome = true ∧
      ∀ pt ∈ p.points, (pt.quantity.bind pyFloat).isSome = true

instance (doc : LoadDoc) : Decidable (ValidDoc doc) := by
  unfold ValidDoc
  infer_instance

/-- The output the spec prescribes for one TimeSeries: one LoadPoint per
parsable Point of the first Period, in document order, each stamped with
that Period's start instant and carrying the quantity as its load. -/
def specSeriesPoints (ts : TimeSeriesElem) : List LoadPoint :=
  match ts.periods.head? with
  | none => []
  | some p =>
    match p.start.bind fromisoformat with
    | none => []
    | some d =>
      p.points.filterMap fun pt =>
        (pt.quantity.bind pyFloat).map fun q => { time := d, load_kwh := q }

/-- The output the spec prescribes for a whole document: the per-series
outputs concatenated in document order. -/
def specLoadPoints (doc : LoadDoc) : List LoadPoint :=
  doc.series.flatMap specSeriesPoints

theorem parsePoints_ok (d : PyDateTime) :
    ∀ pts : List PointElem,
      (∀ pt ∈ pts, (pt.quantity.bind pyFloat).isSome = true) →
      parsePoints d pts = .ok (pts.filterMap fun pt =>
        (pt.quantity.bind pyFloat).map fun q =>
          ({ time := d, load_kwh := q } : LoadPoint)) := by
  intro pts
  induction pts with
  | nil => intro _; rfl
  | cons pt rest ih =>
    intro h
    have hpt := h pt (List.mem_cons_self _ _)
    have hrest := ih fun x hx => h x (List.mem_cons_of_mem _ hx)
    match hq : pt.quantity with
    | none => simp [hq] at hpt
    | some t =>
      match hf : pyFloat t with
      | none => simp [hq, hf] at hpt
      | some q =>
        simp [parsePoints, hq, hf, hrest, List.filterMap_cons, Bind.bind, Except.bind]

theorem length_filterMap_of_isSome {α β : Type} (f : α → Option β) :
    ∀ l : List α, (∀ a ∈ l, (f a).isSome = true) →
      (l.filterMap f).length = l.length := by
  intro l
  induction l with
  | nil => intro _; rfl
  | cons a l ih =>
    intro h
    have ha := h a (List.mem_cons_self _ _)
    match hfa : f a with
    | none => simp [hfa] at ha
    | some b =>
      simp [List.filterMap_cons, hfa, ih fun x hx => h x (List.mem_cons_of_mem _ hx)]

theorem parseSeriesList_ok :
    ∀ l : List TimeSeriesElem,
      (∀ ts ∈ l, ts.periods.length = 1 ∧
        ∀ p ∈ ts.periods, (p.start.bind fromisoformat).isSome = true ∧
          ∀ pt ∈ p.points, (pt.quantity.bind pyFloat).isSome = true) →
      parseSeriesList l = .ok (l.flatMap specSeriesPoints) ∧
      (l.flatMap specSeriesPoints).length =
        (l.map fun ts => (ts.periods.map fun p => p.points.length).sum).sum := by
  intro l
  induction l with
  | nil => intro _; exact ⟨rfl, rfl⟩
  | cons ts rest ih =>
    intro h
    obtain ⟨hlen, hper⟩ := h ts (List.mem_cons_self _ _)
    obtain ⟨hrest, hrestlen⟩ := ih fun x hx => h x (List.mem_cons_of_mem _ hx)
    obtain ⟨p, hp⟩ := List.length_eq_one.mp hlen
    obtain ⟨hstart, hq⟩ := hper p (by rw [hp]; exact List.mem_cons_self _ _)
    match hd : p.start.bind fromisoformat with
    | none => simp [hd] at hstart
    | some d =>
      have hpts := parsePoints_ok d p.points hq
      have hq2 : ∀ a ∈ p.points,
          ((a.quantity.bind pyFloat).map fun q =>
            ({ time := d, load_kwh := q } : LoadPoint)).isSome = true := by
        intro a ha
        have h3 := hq a ha
        match ho : a.quantity.bind pyFloat with
        | none => rw [ho] at h3; exact absurd h3 (by simp)
        | some q => simp [ho]
      have hslen : (specSeriesPoints ts).length = p.points.length := by
        unfold specSeriesPoints
        rw [hp]
        simp only [List.head?]
        rw [hd]
        exact length_filterMap_of_isSome _ p.points hq2
      constructor
      · match hs : p.start with
        | none => simp [hs] at hd
        | some t =>
          have hiso : fromisoformat t = some d := by
            simpa [hs] using hd
          simp [parseSeriesList, hp, hs, hiso, hrest, hpts,
            specSeriesPoints, hd, List.flatMap_cons, Bind.bind, Except.bind]
      · rw [List.flatMap_cons, List.length_append, List.map_cons, List.sum_cons,
          hslen, hrestlen, hp]
        simp

/-- Claim C4: on every load document valid per the spec's schema (each
TimeSeries containing exactly one Period with a parsable start, each Point
holding a parsable quantity), the extraction succeeds and returns exactly
one LoadPoint per Point element — the document-total Point count, with no
deduplication or sorting — in document order, each timestamped at its
enclosing Period's start instant (not offset by point position or
resolution) and with `load_kwh` the quantity converted to a number, as
`specLoadPoints` prescribes. -/
theorem extractLoadPoints_valid_doc (doc : LoadDoc) (h : ValidDoc doc) :
    extractLoadPoints doc = .ok (specLoadPoints doc) ∧
    (specLoadPoints doc).length =
      (doc.series.map fun ts => (ts.periods.map fun p => p.points.length).sum).sum :=
  parseSeriesList_ok doc.series h

/-- A concrete valid document: one TimeSeries, one Period starting
2024-01-01T00:00Z with two Points of quantities 100 and 200. -/
def sampleValidDoc : LoadDoc :=
  ⟨[⟨[⟨some (.isoDate ⟨2024, 1, 1, 0, 0, 0, 0⟩),
      [⟨some (.number 100)⟩, ⟨some (.number 200)⟩]⟩]⟩]⟩

/-- Witness for `extractLoadPoints_valid_doc` at `sampleValidDoc`. -/
theorem extractLoadPoints_valid_doc_witness :
    ValidDoc sampleValidDoc ∧
    (extractLoadPoints sampleValidDoc = .ok (specLoadPoints sampleValidDoc) ∧
      (specLoadPoints sampleValidDoc).length =
        (sampleValidDoc.series.map fun ts =>
          (ts.periods.map fun p => p.points.length).sum).sum) :=
  ⟨by decide, extractLoadPoints_valid_doc sampleValidDoc (by decide)⟩

/-- What the Electricity Maps HTTP exchange can yield: `requestError` —
`requests.get` raises; `badStatus` — `raise_for_status` raises an
`HTTPError` (a `requests.RequestException`); `malformedJson` —
`response.json()` raises `requests.exceptions.JSONDecodeError` (a
`requests.RequestException` subclass since requests 2.27); `json ci` — a
JSON object whose optional numeric `carbonIntensity` field is `ci`. -/
inductive CO2Response where
  | requestError
  | badStatus
  | malformedJson
  | json (carbonIntensity : Option ℚ)
deriving DecidableEq, Repr

/-- `EnergyDataCollector.get_co2_intensity` (lines 105-126): returns
`data.get("carbonIntensity", 0)` on success; `except
requests.RequestException` returns 0 for the network, status and
JSON-decode failures. -/
def get_co2_intensity : CO2Response → ℚ
  | .requestError => 0
  | .badStatus => 0
  | .malformedJson => 0
  | .json ci => ci.getD 0

/-- Claim C6: the intensity fetch returns the numeric `carbonIntensity`
field of the JSON response on success, 0 when the field is absent, and 0
without propagating an exception on network error, non-2xx status, or
malformed JSON (each of those raises a `requests.RequestException`, which
the handler catches and maps to 0). -/
theorem get_co2_intensity_spec :
    (∀ x : ℚ, get_co2_intensity (.json (some x)) = x) ∧
    get_co2_intensity (.json none) = 0 ∧
    get_co2_intensity .requestError = 0 ∧
    get_co2_intensity .badStatus = 0 ∧
    get_co2_intensity .malformedJson = 0 :=
  ⟨fun _ => rfl, rfl, rfl, rfl, rfl⟩

/-- One price dict `{'time': ..., 'price_eur_kwh': ...}`. -/
structure PricePoint where
  time : PyDateTime
  price_eur_kwh : ℚ
deriving DecidableEq, Repr

/-- `EnergyDataCollector.get_epex_prices` (lines 128-144): placeholder that
returns exactly one price point at the window start with price 0.10. -/
def get_epex_prices (start _end : PyDateTime) : List PricePoint :=
  [{ time := start, price_eur_kwh := 1 / 10 }]

/-- The field set of one InfluxDB point as built at lines 194-200. -/
structure EnergyFields where
  energy_kwh : ℚ
  co2eq_g : ℚ
  cost_eur : ℚ
  co2_intensity : ℚ
  price_eur_kwh : ℚ
deriving DecidableEq, Repr

/-- One InfluxDB point dict as built at lines 191-201. -/
structure InfluxPoint where
  measurement : String
  time : PyDateTime
  fields : EnergyFields
deriving DecidableEq, Repr

/-- `manufacturing_factor = 0.23` (line 179). -/
def manufacturing_factor : ℚ := 23 / 100

/-- `price_data[0] if price_data else {'price_eur_kwh': 0}` followed by
`price['price_eur_kwh']` (lines 188-189): the first price point's price,
or 0 when the price list is empty. -/
def firstPrice (price_data : List PricePoint) : ℚ :=
  match price_data.head? with
  | some p => p.price_eur_kwh
  | none => 0

/-- The record-composition loop of `collect_and_store_data`
(lines 182-202): for each load dict, in order,
  energy_kwh = load['load_kwh'] * manufacturing_factor,
  co2eq      = energy_kwh * co2_intensity,
  cost       = energy_kwh * price['price_eur_kwh'],
and one point with measurement "manufacturing_energy", the load's time,
and the five fields. (The `load.get` defaults are unreachable: every dict
produced by `get_entsoe_load` carries both keys.) -/
def composePoints (load_data : List LoadPoint) (co2_intensity : ℚ)
    (price_data : List PricePoint) : List InfluxPoint :=
  load_data.map fun load =>
    let energy_kwh := load.load_kwh * manufacturing_factor
    let co2eq := energy_kwh * co2_intensity
    let cost := energy_kwh * firstPrice price_data
    { measurement := "manufacturing_energy"
      time := load.time
      fields :=
        { energy_kwh := energy_kwh
          co2eq_g := co2eq
          cost_eur := cost
          co2_intensity := co2_intensity
          price_eur_kwh := firstPrice price_data } }

/-- Claim C5: for every non-empty load list the composition emits exactly
one record per load point — same cardinality, and pointwise the record
keeps the load point's timestamp and satisfies
  energy_kwh = load_kwh * 0.23,
  co2eq_g    = energy_kwh * co2_intensity,
  cost_eur   = energy_kwh * price_eur_kwh,
with price_eur_kwh the first price point's price (0 if none), broadcast to
every record with no per-timestamp matching. -/
theorem composePoints_spec (load_data : List LoadPoint) (co2_intensity : ℚ)
    (price_data : List PricePoint) (hne : load_data ≠ []) :
    (composePoints load_data co2_intensity price_data).length = load_data.length ∧
    List.Forall₂ (fun (r : InfluxPoint) (l : LoadPoint) =>
        r.time = l.time ∧
        r.fields.energy_kwh = l.load_kwh * manufacturing_factor ∧
        r.fields.co2eq_g = r.fields.energy_kwh * co2_intensity ∧
        r.fields.cost_eur = r.fields.energy_kwh * r.fields.price_eur_kwh ∧
        r.fields.price_eur_kwh = firstPrice price_data)
      (composePoints load_data co2_intensity price_data) load_data := by
  refine ⟨List.length_map _ _, ?_⟩
  clear hne
  induction load_data with
  | nil => exact List.Forall₂.nil
  | cons l rest ih =>
    exact List.Forall₂.cons ⟨rfl, rfl, rfl, rfl, rfl⟩ ih

/-- Witness for `composePoints_spec` on one concrete load point. -/
theorem composePoints_spec_witness :
    ([({ time := ⟨2024, 1, 1, 0, 0, 0, 0⟩, load_kwh := 100 } : LoadPoint)] ≠ []) ∧
    ((composePoints [{ time := ⟨2024, 1, 1, 0, 0, 0, 0⟩, load_kwh := 100 }] 400
        [{ time := ⟨2024, 1, 1, 0, 0, 0, 0⟩, price_eur_kwh := 1 / 10 }]).length =
      [({ time := ⟨2024, 1, 1, 0, 0, 0, 0⟩, load_kwh := 100 } : LoadPoint)].length ∧
    List.Forall₂ (fun (r : InfluxPoint) (l : LoadPoint) =>
        r.time = l.time ∧
        r.fields.energy_kwh = l.load_kwh * manufacturing_factor ∧
        r.fields.co2eq_g = r.fields.energy_kwh * 400 ∧
        r.fields.cost_eur = r.fields.energy_kwh * r.fields.price_eur_kwh ∧
        r.fields.price_eur_kwh = firstPrice
          [{ time := ⟨2024, 1, 1, 0, 0, 0, 0⟩, price_eur_kwh := 1 / 10 }])
      (composePoints [{ time := ⟨2024, 1, 1, 0, 0, 0, 0⟩, load_kwh := 100 }] 400
        [{ time := ⟨2024, 1, 1, 0, 0, 0, 0⟩, price_eur_kwh := 1 / 10 }])
      [{ time := ⟨2024, 1, 1, 0, 0, 0, 0⟩, load_kwh := 100 }]) :=
  ⟨by decide,
   composePoints_spec [{ time := ⟨2024, 1, 1, 0, 0, 0, 0⟩, load_kwh := 100 }] 400
     [{ time := ⟨2024, 1, 1, 0, 0, 0, 0⟩, price_eur_kwh := 1 / 10 }] (by decide)⟩

/-- Claim C7: composing an empty load list yields the empty batch whatever
the other inputs are; and composing with an empty price list is not an
error — every record then carries price_eur_kwh = 0 and cost_eur = 0. -/
theorem composePoints_empty_cases :
    (∀ (co2_intensity : ℚ) (price_data : List PricePoint),
      composePoints [] co2_intensity price_data = []) ∧
    (∀ (load_data : List LoadPoint) (co2_intensity : ℚ),
      (composePoints load_data co2_intensity []).map
          (fun r => (r.fields.price_eur_kwh, r.fields.cost_eur)) =
        load_data.map fun _ => ((0 : ℚ), (0 : ℚ))) := by
  constructor
  · intro _ _
    rfl
  · intro load_data co2_intensity
    induction load_data with
    | nil => rfl
    | cons l rest ih =>
      simp only [composePoints, List.map_cons, List.map_map] at ih ⊢
      rw [List.cons.injEq]
      constructor
      · simp [firstPrice]
      · exact ih

/-- `self.influx_client.write_points(points)` (line 206): the sink call,
which either succeeds or raises an InfluxDB client error. -/
def write_points (sinkFails : Bool) (_points : List InfluxPoint) : Except PyExc Unit :=
  if sinkFails then .error .influxError else .ok ()

/-- The `try` suite of the module-level `collect_and_store_data`
(lines 173-209): fetch load, CO2 intensity and prices, compose the batch,
then either warn on an empty batch or call `write_points` once with the
whole batch. Result: (the batches passed to `write_points`, whether the
no-data warning was logged, the exception the suite raised if any). -/
def collect_suite (today_utc : PyDateTime) (days_to_collect : ℤ)
    (entsoe : EntsoeOutcome) (co2 : CO2Response) (sinkFails : Bool) :
    List (List InfluxPoint) × Bool × Option PyExc :=
  let w := computeWindow today_utc days_to_collect
  match get_entsoe_load entsoe with
  | .error e => ([], false, some e)
  | .ok load_data =>
    let co2_intensity := get_co2_intensity co2
    let price_data := get_epex_prices w.1 w.2
    let points := composePoints load_data co2_intensity price_data
    if points.isEmpty then
      ([], true, none)
    else
      match write_points sinkFails points with
      | .error e => ([points], false, some e)
      | .ok _ => ([points], false, none)

/-- The observable outcome of one run: the batches handed to the sink's
`write_points`, whether the "No data points to write" warning was logged,
and the exception caught and logged by the run-level handler, if any. -/
structure RunResult where
  writes : List (List InfluxPoint)
  warnedNoData : Bool
  caughtError : Option PyExc
deriving DecidableEq, Repr

/-- The module-level `collect_and_store_data` (lines 155-212): the `try`
suite wrapped in `except Exception as e: logger.error(...)`. A raised
object that is an `Exception` is caught, logged and suppressed (normal
return); only a non-`Exception` raise (`KeyboardInterrupt`/`SystemExit`)
would escape to the caller as `.error`. -/
def collect_and_store_data (today_utc : PyDateTime) (days_to_collect : ℤ)
    (entsoe : EntsoeOutcome) (co2 : CO2Response) (sinkFails : Bool) :
    Except PyExc RunResult :=
  match collect_suite today_utc days_to_collect entsoe co2 sinkFails with
  | (w, warned, none) => .ok ⟨w, warned, none⟩
  | (w, warned, some e) =>
    if isException e then .ok ⟨w, warned, some e⟩ else .error e

namespace EnergyDataCollector

/-- The class method `EnergyDataCollector.collect_and_store_data` as Python
actually defines it (lines 146-154): the re-definition at line 155 starts
in column 0, so it is a module-level function outside the class, and the
method body consists of its docstring alone. The method reads none of its
arguments or surroundings, performs no window computation, no fetch, no
composition and no write, and returns None. -/
def collect_and_store_data (_today_utc : PyDateTime)
    (_days_to_collect _interval_minutes : ℤ) (_entsoe : EntsoeOutcome)
    (_co2 : CO2Response) (_sinkFails : Bool) : Except PyExc RunResult :=
  .ok ⟨[], false, none⟩

end EnergyDataCollector

/-- `main` (lines 214-222) invokes the entry point as
`collector.collect_and_store_data(days_to_collect=7, interval_minutes=15)`
— i.e. the class method, with those arguments. -/
def mainInvocation (today_utc : PyDateTime) (entsoe : EntsoeOutcome)
    (co2 : CO2Response) (sinkFails : Bool) : Except PyExc RunResult :=
  EnergyDataCollector.collect_and_store_data today_utc 7 15 entsoe co2 sinkFails

/-- Claim C1 is refuted by the code as written: the entry point `main`
actually executes — the class method — returns immediately with no fetch
and no write for every input, and is NOT behaviorally equal to the
definition without the interval parameter (the module-level function,
which on the sample run fetches, composes and writes a non-empty batch).
The claim correctly describes the intended behavior documented by the
method's own docstring, so the defect is in the code: the line-155
re-definition was left at module indentation, turning the invoked method
into a docstring-only stub. -/
theorem method_is_docstring_only_stub :
    (∀ (today_utc : PyDateTime) (entsoe : EntsoeOutcome) (co2 : CO2Response)
      (sinkFails : Bool),
      mainInvocation today_utc entsoe co2 sinkFails = .ok ⟨[], false, none⟩) ∧
    mainInvocation ⟨2024, 3, 10, 12, 0, 0, 0⟩ (.response sampleValidDoc)
        (.json (some 400)) false ≠
      collect_and_store_data ⟨2024, 3, 10, 12, 0, 0, 0⟩ 7 (.response sampleValidDoc)
        (.json (some 400)) false ∧
    ∃ r, collect_and_store_data ⟨2024, 3, 10, 12, 0, 0, 0⟩ 7 (.response sampleValidDoc)
        (.json (some 400)) false = .ok r ∧ r.writes ≠ [] :=
  ⟨fun _ _ _ _ => rfl, by decide, by refine ⟨_, rfl, ?_⟩; decide⟩

theorem parsePoints_error_isException (d : PyDateTime) :
    ∀ (pts : List PointElem) (e : PyExc),
      parsePoints d pts = .error e → isException e = true := by
  intro pts
  induction pts with
  | nil => intro e h; simp [parsePoints] at h
  | cons pt rest ih =>
    intro e h
    rw [parsePoints] at h
    split at h
    · cases h; rfl
    · split at h
      · cases h; rfl
      · match hr : parsePoints d rest with
        | .error e2 =>
          rw [hr] at h
          simp [Bind.bind, Except.bind] at h
          exact h ▸ ih e2 hr
        | .ok tail =>
          rw [hr] at h
          simp [Bind.bind, Except.bind] at h

theorem parseSeriesList_error_isException :
    ∀ (l : List TimeSeriesElem) (e : PyExc),
      parseSeriesList l = .error e → isException e = true := by
  intro l
  induction l with
  | nil => intro e h; simp [parseSeriesList] at h
  | cons ts rest ih =>
    intro e h
    rw [parseSeriesList] at h
    split at h
    · match hr : parseSeriesList rest with
      | .error e2 =>
        rw [hr] at h
        simp [Bind.bind, Except.bind] at h
        exact h ▸ ih e2 hr
      | .ok tail =>
        rw [hr] at h
        simp [Bind.bind, Except.bind] at h
    · split at h
      · simp [Bind.bind, Except.bind] at h
        exact h ▸ rfl
      · split at h
        · simp [Bind.bind, Except.bind] at h
          exact h ▸ rfl
        · rename_i p hper x1 t hts x2 d hiso
          match hp : parsePoints d p.points with
          | .error e2 =>
            rw [hp] at h
            simp [Bind.bind, Except.bind] at h
            exact h ▸ parsePoints_error_isException d _ e2 hp
          | .ok pts =>
            rw [hp] at h
            match hr : parseSeriesList rest with
            | .error e2 =>
              rw [hr] at h
              simp [Bind.bind, Except.bind] at h
              exact h ▸ ih e2 hr
            | .ok tail =>
              rw [hr] at h
              simp [Bind.bind, Except.bind] at h

theorem get_entsoe_load_error_isException (o : EntsoeOutcome) (e : PyExc)
    (h : get_entsoe_load o = .error e) : isException e = true := by
  match o with
  | .requestError => exact absurd h (by simp [get_entsoe_load])
  | .malformedXml => exact absurd h (by simp [get_entsoe_load])
  | .response doc => exact parseSeriesList_error_isException doc.series e h

theorem write_points_error_isException (sinkFails : Bool)
    (points : List InfluxPoint) (e : PyExc)
    (h : write_points sinkFails points = .error e) : isException e = true := by
  rw [write_points] at h
  split at h
  · simp at h
    exact h ▸ rfl
  · simp at h

theorem collect_suite_error_isException (today_utc : PyDateTime)
    (days_to_collect : ℤ) (entsoe : EntsoeOutcome) (co2 : CO2Response)
    (sinkFails : Bool) (e : PyExc)
    (h : (collect_suite today_utc days_to_collect entsoe co2 sinkFails).2.2 = some e) :
    isException e = true := by
  rw [collect_suite] at h
  split at h
  · rename_i e2 hge
    simp at h
    exact h ▸ get_entsoe_load_error_isException entsoe e2 hge
  · simp only [] at h
    split at h
    · simp at h
    · split at h
      · rename_i e2 hw
        simp at h
        exact h ▸ write_points_error_isException _ _ e2 hw
      · simp at h

/-- Claim C9: for every combination of HTTP outcome, CO2 outcome and sink
behavior — hence for every exception the fetch, parse, compose and write
phases can raise (`ValueError`, `AttributeError`, the InfluxDB client
error) — the module-level `collect_and_store_data` returns normally
(`.ok`); nothing escapes to its caller, because everything the suite
raises is an `Exception` and the top-level `except Exception` handler
catches, logs and suppresses it. -/
theorem collect_and_store_data_no_escape (today_utc : PyDateTime)
    (days_to_collect : ℤ) (entsoe : EntsoeOutcome) (co2 : CO2Response)
    (sinkFails : Bool) :
    ∃ r : RunResult,
      collect_and_store_data today_utc days_to_collect entsoe co2 sinkFails = .ok r := by
  rw [collect_and_store_data]
  match hs : collect_suite today_utc days_to_collect entsoe co2 sinkFails with
  | (w, warned, none) => exact ⟨⟨w, warned, none⟩, rfl⟩
  | (w, warned, some e) =>
    have he : isException e = true :=
      collect_suite_error_isException today_utc days_to_collect entsoe co2
        sinkFails e (by rw [hs])
    exact ⟨⟨w, warned, some e⟩, by simp [he]⟩

/-- Claim C8: given that the load fetch returned `load_data` without
raising, let `points` be the composed batch. If `points` is empty, the run
logs the no-data warning and never invokes the sink's `write_points`; if
`points` is non-empty, `write_points` is invoked exactly once, with the
full batch, and no warning is logged — in both cases the run returns
normally. -/
theorem collect_and_store_data_write_policy (today_utc : PyDateTime)
    (days_to_collect : ℤ) (entsoe : EntsoeOutcome) (co2 : CO2Response)
    (sinkFails : Bool) (load_data : List LoadPoint)
    (h : get_entsoe_load entsoe = .ok load_data) :
    (composePoints load_data (get_co2_intensity co2)
        (get_epex_prices (computeWindow today_utc days_to_collect).1
          (computeWindow today_utc days_to_collect).2) = [] →
      collect_and_store_data today_utc days_to_collect entsoe co2 sinkFails =
        .ok ⟨[], true, none⟩) ∧
    (composePoints load_data (get_co2_intensity co2)
        (get_epex_prices (computeWindow today_utc days_to_collect).1
          (computeWindow today_utc days_to_collect).2) ≠ [] →
      ∃ r, collect_and_store_data today_utc days_to_collect entsoe co2 sinkFails =
          .ok r ∧
        r.writes = [composePoints load_data (get_co2_intensity co2)
          (get_epex_prices (computeWindow today_utc days_to_collect).1
            (computeWindow today_utc days_to_collect).2)] ∧
        r.warnedNoData = false) := by
  constructor
  · intro hpts
    rw [collect_and_store_data, collect_suite, h]
    simp only []
    rw [hpts]
    rfl
  · intro hpts
    have hne : (composePoints load_data (get_co2_intensity co2)
        (get_epex_prices (computeWindow today_utc days_to_collect).1
          (computeWindow today_utc days_to_collect).2)).isEmpty = false := by
      rw [List.isEmpty_eq_false]
      exact hpts
    rw [collect_and_store_data, collect_suite, h]
    simp only []
    rw [hne]
    simp only [Bool.false_eq_true, if_false]
    match hsf : sinkFails with
    | false =>
      rw [write_points]
      simp only [if_false, Bool.false_eq_true]
      exact ⟨_, rfl, rfl, rfl⟩
    | true =>
      rw [write_points]
      simp only [if_true]
      exact ⟨⟨[composePoints load_data (get_co2_intensity co2)
          (get_epex_prices (computeWindow today_utc days_to_collect).1
            (computeWindow today_utc days_to_collect).2)], false, some .influxError⟩,
        by simp [isException], rfl, rfl⟩

/-- Witness for `collect_and_store_data_write_policy` on a run over
`sampleValidDoc` (two load points) with CO2 intensity 400 and a healthy
sink. -/
theorem collect_and_store_data_write_policy_witness :
    get_entsoe_load (.response sampleValidDoc) =
      .ok [{ time := ⟨2024, 1, 1, 0, 0, 0, 0⟩, load_kwh := 100 },
           { time := ⟨2024, 1, 1, 0, 0, 0, 0⟩, load_kwh := 200 }] ∧
    ((composePoints [{ time := ⟨2024, 1, 1, 0, 0, 0, 0⟩, load_kwh := 100 },
           { time := ⟨2024, 1, 1, 0, 0, 0, 0⟩, load_kwh := 200 }]
        (get_co2_intensity (.json (some 400)))
        (get_epex_prices (computeWindow ⟨2024, 3, 10, 12, 0, 0, 0⟩ 7).1
          (computeWindow ⟨2024, 3, 10, 12, 0, 0, 0⟩ 7).2) = [] →
      collect_and_store_data ⟨2024, 3, 10, 12, 0, 0, 0⟩ 7 (.response sampleValidDoc)
          (.json (some 400)) false = .ok ⟨[], true, none⟩) ∧
    (composePoints [{ time := ⟨2024, 1, 1, 0, 0, 0, 0⟩, load_kwh := 100 },
           { time := ⟨2024, 1, 1, 0, 0, 0, 0⟩, load_kwh := 200 }]
        (get_co2_intensity (.json (some 400)))
        (get_epex_prices (computeWindow ⟨2024, 3, 10, 12, 0, 0, 0⟩ 7).1
          (computeWindow ⟨2024, 3, 10, 12, 0, 0, 0⟩ 7).2) ≠ [] →
      ∃ r, collect_and_store_data ⟨2024, 3, 10, 12, 0, 0, 0⟩ 7 (.response sampleValidDoc)
          (.json (some 400)) false = .ok r ∧
        r.writes = [composePoints [{ time := ⟨2024, 1, 1, 0, 0, 0, 0⟩, load_kwh := 100 },
           { time := ⟨2024, 1, 1, 0, 0, 0, 0⟩, load_kwh := 200 }]
          (get_co2_intensity (.json (some 400)))
          (get_epex_prices (computeWindow ⟨2024, 3, 10, 12, 0, 0, 0⟩ 7).1
            (computeWindow ⟨2024, 3, 10, 12, 0, 0, 0⟩ 7).2)] ∧
        r.warnedNoData = false)) :=
  ⟨rfl,
   collect_and_store_data_write_policy ⟨2024, 3, 10, 12, 0, 0, 0⟩ 7
     (.response sampleValidDoc) (.json (some 400)) false
     [{ time := ⟨2024, 1, 1, 0, 0, 0, 0⟩, load_kwh := 100 },
      { time := ⟨2024, 1, 1, 0, 0, 0, 0⟩, load_kwh := 200 }] rfl⟩
